import Mathlib

/-!
Verification development for the EchoVerse demo application.

The program under study has three parts:
* `MockWatsonxLLM.rewrite_text` — a tone-keyed chain of global substring
  replacements (modelled here with `pyReplace`, a faithful embedding of the
  Python `str.replace` method);
* `MockWatsonTTS.synthesize` — a mock text-to-speech call that sleeps for one
  time unit and returns the base64 encoding of a marker, the first 50
  characters of the text, a separator, and the voice label;
* the session-state transitions of `main` — paste, upload, tone/voice
  selection, rewrite and synthesis, each embedded as a pure state-transition
  function on `SessionState`.
-/

/-- One scan step of the Python `str.replace` method on character lists.
`skip` counts characters of an already-matched occurrence that still have to
be dropped.  At `skip = 0` the scanner tries to match `pat` at the current
position; on a match it emits `rep`, consumes the head character and arranges
for the remaining `pat.length - 1` matched characters to be dropped, exactly
the left-to-right non-overlapping behaviour of Python for a non-empty
pattern. -/
def pyReplaceAux (pat rep : List Char) : Nat → List Char → List Char
  | _, [] => []
  | k + 1, _ :: rest => pyReplaceAux pat rep k rest
  | 0, c :: rest =>
    if pat.isPrefixOf (c :: rest) then
      rep ++ pyReplaceAux pat rep (pat.length - 1) rest
    else
      c :: pyReplaceAux pat rep 0 rest

/-- Embedding of the Python expression `s.replace(pat, rep)`.  For an empty
pattern Python inserts `rep` before every character and once at the end; the
program only ever calls `replace` with non-empty patterns, where the scanner
`pyReplaceAux` applies. -/
def pyReplace (s pat rep : String) : String :=
  if pat.data = [] then
    ⟨rep.data ++ s.data.foldr (fun c acc => c :: (rep.data ++ acc)) []⟩
  else
    ⟨pyReplaceAux pat.data rep.data 0 s.data⟩

namespace MockWatsonxLLM

/-- Embedding of `MockWatsonxLLM.rewrite_text`: the three tone branches apply
their fixed replacement chains in source order; any other tone label falls
through and returns the text unchanged. -/
def rewrite_text (text : String) (tone : String) : String :=
  if tone = "Suspenseful" then
    let text := pyReplace text "." "... "
    let text := pyReplace text "important" "crucial"
    let text := pyReplace text "will" "shall"
    "What lies ahead? " ++ text ++ " The answer may surprise you."
  else if tone = "Inspiring" then
    let text := pyReplace text "can" "have the power to"
    let text := pyReplace text "should" "are destined to"
    let text := pyReplace text "difficult" "challenging yet conquerable"
    "Imagine the possibilities: " ++ text ++ " Your journey begins now!"
  else if tone = "Neutral" then
    let text := pyReplace text "!" "."
    let text := pyReplace text "amazing" "notable"
    let text := pyReplace text "awesome" "effective"
    text
  else
    text

end MockWatsonxLLM

/-- UTF-8 encoding of a single character, as the list of its byte values. -/
def utf8EncodeChar (c : Char) : List Nat :=
  let n := c.toNat
  if n < 128 then [n]
  else if n < 2048 then [192 + n / 64, 128 + n % 64]
  else if n < 65536 then [224 + n / 4096, 128 + n / 64 % 64, 128 + n % 64]
  else [240 + n / 262144, 128 + n / 4096 % 64, 128 + n / 64 % 64, 128 + n % 64]

/-- UTF-8 encoding of a string, the embedding of the Python `str.encode`
method with its default encoding. -/
def utf8Encode (s : String) : List Nat :=
  s.data.foldr (fun c acc => utf8EncodeChar c ++ acc) []

/-- The standard base64 alphabet character for an index below 64. -/
def b64Char (n : Nat) : Char :=
  "ABCDEFGHIJKLMNOPQRSTUVWXYZabcdefghijklmnopqrstuvwxyz0123456789+/".data.getD n 'A'

/-- Standard base64 encoding of a byte list with `=` padding, the embedding
of the Python `base64.b64encode` function. -/
def base64Encode : List Nat → List Char
  | [] => []
  | [a] => [b64Char (a / 4), b64Char (a % 4 * 16), '=', '=']
  | [a, b] => [b64Char (a / 4), b64Char (a % 4 * 16 + b / 16), b64Char (b % 16 * 4), '=']
  | a :: b :: c :: rest =>
    b64Char (a / 4) :: b64Char (a % 4 * 16 + b / 16) ::
      b64Char (b % 16 * 4 + c / 64) :: b64Char (c % 64) :: base64Encode rest

namespace MockWatsonTTS

/-- Embedding of `MockWatsonTTS.synthesize`.  The `time.sleep(1)` call is
modelled by advancing an explicit clock by one unit; the returned bytes are
the base64 encoding of the marker `MOCK_AUDIO_DATA_`, the UTF-8 encoding of
the first 50 characters of `text` (the Python slice `text[:50]` takes code
points), the separator `_`, and the voice label. -/
def synthesize (clock : Nat) (text : String) (voice : String) : Nat × List Nat :=
  let clock := clock + 1
  let audio_data := utf8Encode "MOCK_AUDIO_DATA_" ++ utf8Encode ⟨text.data.take 50⟩ ++
    utf8Encode "_" ++ utf8Encode voice
  (clock, (base64Encode audio_data).map Char.toNat)

end MockWatsonTTS

/-- The Streamlit session state of `main`: original text, rewritten text,
selected tone, selected voice, and the generated audio bytes (absent until
synthesis succeeds). -/
structure SessionState where
  original_text : String
  rewritten_text : String
  selected_tone : String
  selected_voice : String
  audio_data : Option (List Nat)
deriving DecidableEq, Repr

/-- Characters stripped by the Python `str.strip` method: the exact
whitespace table of the CPython `str.isspace` predicate — the ASCII control
characters 09–0D, the separators 1C–1F, the space 20, next line 85,
no-break space A0, ogham space mark 1680, the Zs range 2000–200A, line and
paragraph separators 2028 and 2029, narrow no-break space 202F, medium
mathematical space 205F, and ideographic space 3000. -/
def pyIsSpace (c : Char) : Bool :=
  let n := c.toNat
  (9 ≤ n && n ≤ 13) || (28 ≤ n && n ≤ 32) || n = 133 || n = 160 ||
    n = 5760 || (8192 ≤ n && n ≤ 8202) || n = 8232 || n = 8233 ||
    n = 8239 || n = 8287 || n = 12288

/-- Embedding of the Python expression `content.strip()`: drop leading and
trailing whitespace characters. -/
def pyStrip (s : String) : String :=
  ⟨((s.data.dropWhile pyIsSpace).reverse.dropWhile pyIsSpace).reverse⟩

/-- Embedding of `process_uploaded_file`: the attempt to read and UTF-8
decode the uploaded file either yields its decoded content, which is
returned stripped of leading and trailing whitespace, or fails, in which
case an error is shown and the empty string is returned. -/
def process_uploaded_file (readResult : Except String String) : String :=
  match readResult with
  | Except.ok content => pyStrip content
  | Except.error _ => ""

/-- Embedding of the paste-text branch of `main`: a text-area value that
differs from the stored original text replaces it and resets the rewritten
text and the audio bytes in the same step. -/
def pasteTextStep (s : SessionState) (text_input : String) : SessionState :=
  if text_input ≠ s.original_text then
    { s with original_text := text_input, rewritten_text := "", audio_data := none }
  else s

/-- Embedding of the upload branch of `main`: a processed file content that
is non-empty and differs from the stored original text replaces it and
resets the rewritten text and the audio bytes in the same step. -/
def uploadFileStep (s : SessionState) (file_content : String) : SessionState :=
  if file_content ≠ "" ∧ file_content ≠ s.original_text then
    { s with original_text := file_content, rewritten_text := "", audio_data := none }
  else s

/-- Embedding of the voice selectbox of `main`: only the voice field
changes. -/
def selectVoice (s : SessionState) (v : String) : SessionState :=
  { s with selected_voice := v }

/-- Embedding of the tone selectbox of `main`: only the tone field
changes. -/
def selectTone (s : SessionState) (t : String) : SessionState :=
  { s with selected_tone := t }

/-- Embedding of the `try`/`except` block around the rewrite call in `main`:
on success the rewritten text field receives the returned value, on an
exception an error is shown and the state is left as it was. -/
def applyRewriteResult (s : SessionState) (r : Except String String) : SessionState :=
  match r with
  | Except.ok t => { s with rewritten_text := t }
  | Except.error _ => s

/-- Embedding of the `try`/`except` block around the synthesis call in
`main`: on success the audio field receives the returned bytes, on an
exception an error is shown and the state is left as it was. -/
def applySynthesizeResult (s : SessionState) (r : Except String (List Nat)) : SessionState :=
  match r with
  | Except.ok b => { s with audio_data := some b }
  | Except.error _ => s

/-- Embedding of the rewrite button of `main`: the button exists only when
the original text is non-empty, and clicking it recomputes the rewritten
text from the current original text and tone. -/
def rewriteAction (s : SessionState) : SessionState :=
  if s.original_text ≠ "" then
    applyRewriteResult s
      (Except.ok (MockWatsonxLLM.rewrite_text s.original_text s.selected_tone))
  else s

/-- Embedding of the synthesis button of `main`: the button exists only when
the rewritten text is non-empty, and clicking it stores the synthesized
bytes, threading the clock through the sleep inside `synthesize`. -/
def synthesizeAction (clock : Nat) (s : SessionState) : Nat × SessionState :=
  if s.rewritten_text ≠ "" then
    let r := MockWatsonTTS.synthesize clock s.rewritten_text s.selected_voice
    (r.1, applySynthesizeResult s (Except.ok r.2))
  else (clock, s)

/-! ### Helper lemmas -/

theorem data_append (a b : String) : (a ++ b).data = a.data ++ b.data := rfl

theorem pyReplace_data (s pat rep : String) (h : pat.data ≠ []) :
    (pyReplace s pat rep).data = pyReplaceAux pat.data rep.data 0 s.data := by
  unfold pyReplace
  rw [if_neg h]

theorem rewrite_text_neutral (t : String) :
    MockWatsonxLLM.rewrite_text t "Neutral" =
      pyReplace (pyReplace (pyReplace t "!" ".") "amazing" "notable") "awesome" "effective" := rfl

theorem rewrite_text_suspenseful (t : String) :
    MockWatsonxLLM.rewrite_text t "Suspenseful" =
      "What lies ahead? " ++
        (pyReplace (pyReplace (pyReplace t "." "... ") "important" "crucial") "will" "shall") ++
        " The answer may surprise you." := rfl

theorem rewrite_text_inspiring (t : String) :
    MockWatsonxLLM.rewrite_text t "Inspiring" =
      "Imagine the possibilities: " ++
        (pyReplace (pyReplace (pyReplace t "can" "have the power to") "should" "are destined to")
          "difficult" "challenging yet conquerable") ++
        " Your journey begins now!" := rfl

/-- A single-character pattern is matched at every occurrence, so the scanner
eliminates that character from the text altogether, provided the replacement
does not reintroduce it. -/
theorem pyReplaceAux_single_not_mem {p : Char} {rep : List Char} (hrep : p ∉ rep) :
    ∀ l : List Char, p ∉ pyReplaceAux [p] rep 0 l := by
  intro l
  induction l with
  | nil => simp [pyReplaceAux]
  | cons c rest ih =>
    simp only [pyReplaceAux]
    by_cases h : List.isPrefixOf [p] (c :: rest) = true
    · rw [if_pos h]
      intro hmem
      rcases List.mem_append.mp hmem with h1 | h2
      · exact hrep h1
      · exact ih h2
    · rw [if_neg h]
      intro hmem
      rcases List.mem_cons.mp hmem with h1 | h2
      · apply h
        subst h1
        simp [List.isPrefixOf]
      · exact ih h2

/-- The scanner introduces no character that is neither in the replacement
nor in the text. -/
theorem pyReplaceAux_not_mem {x : Char} {pat rep : List Char} (hrep : x ∉ rep) :
    ∀ (l : List Char) (skip : Nat), x ∉ l → x ∉ pyReplaceAux pat rep skip l := by
  intro l
  induction l with
  | nil => intro skip h; simp [pyReplaceAux]
  | cons c rest ih =>
    intro skip hl
    have hc : x ≠ c := fun h => hl (h ▸ List.mem_cons_self c rest)
    have hrest : x ∉ rest := fun h => hl (List.mem_cons_of_mem c h)
    cases skip with
    | succ k =>
      simp only [pyReplaceAux]
      exact ih k hrest
    | zero =>
      simp only [pyReplaceAux]
      by_cases h : List.isPrefixOf pat (c :: rest) = true
      · rw [if_pos h]
        intro hmem
        rcases List.mem_append.mp hmem with h1 | h2
        · exact hrep h1
        · exact ih _ hrest h2
      · rw [if_neg h]
        intro hmem
        rcases List.mem_cons.mp hmem with h1 | h2
        · exact hc h1
        · exact ih 0 hrest h2

/-! ### Claim theorems -/

/-- C1: for every input string, the Suspenseful rewrite starts with the
literal prefix `What lies ahead? ` and ends with the literal suffix
`The answer may surprise you.`, and the Inspiring rewrite starts with
`Imagine the possibilities: ` and ends with `Your journey begins now!`;
the wrappers are applied after the substitutions, for all inputs including
the empty string. -/
theorem suspenseful_inspiring_wrappers (t : String) :
    ("What lies ahead? ".data <+: (MockWatsonxLLM.rewrite_text t "Suspenseful").data ∧
     "The answer may surprise you.".data <:+ (MockWatsonxLLM.rewrite_text t "Suspenseful").data) ∧
    ("Imagine the possibilities: ".data <+: (MockWatsonxLLM.rewrite_text t "Inspiring").data ∧
     "Your journey begins now!".data <:+ (MockWatsonxLLM.rewrite_text t "Inspiring").data) := by
  rw [rewrite_text_suspenseful, rewrite_text_inspiring]
  refine ⟨⟨?_, ?_⟩, ?_, ?_⟩
  · exact ⟨_, (data_append _ _).symm⟩
  · have h2 : ("The answer may surprise you." : String).data <:+
        (" The answer may surprise you." : String).data := by decide
    exact h2.trans ⟨_, (data_append _ _).symm⟩
  · exact ⟨_, (data_append _ _).symm⟩
  · have h2 : ("Your journey begins now!" : String).data <:+
        (" Your journey begins now!" : String).data := by decide
    exact h2.trans ⟨_, (data_append _ _).symm⟩

/-- C2: the Neutral rewrite is the fixed-order composition of the three
global substring replacements, and on the exact scenario input
`This is amazing! It will be important.` it returns exactly
`This is notable. It will be important.`. -/
theorem neutral_scenario :
    (∀ t : String, MockWatsonxLLM.rewrite_text t "Neutral" =
      pyReplace (pyReplace (pyReplace t "!" ".") "amazing" "notable") "awesome" "effective") ∧
    MockWatsonxLLM.rewrite_text "This is amazing! It will be important." "Neutral" =
      "This is notable. It will be important." :=
  ⟨fun t => rewrite_text_neutral t, by decide⟩

/-- C3: for every input string, the Neutral rewrite contains no `!`
character: the first substitution removes every `!` and the two later
substitutions cannot reintroduce one. -/
theorem neutral_no_exclamation (t : String) :
    '!' ∉ (MockWatsonxLLM.rewrite_text t "Neutral").data := by
  rw [rewrite_text_neutral, pyReplace_data _ _ _ (by decide)]
  apply pyReplaceAux_not_mem (by decide)
  rw [pyReplace_data _ _ _ (by decide)]
  apply pyReplaceAux_not_mem (by decide)
  rw [pyReplace_data _ _ _ (by decide)]
  have hpat : ("!" : String).data = ['!'] := by decide
  rw [hpat]
  exact pyReplaceAux_single_not_mem (by decide) t.data

/-- C4: every transition that replaces the original text with a different
value — a pasted text differing from the stored one, or an uploaded content
that is non-empty and differs from the stored one — resets the rewritten
text to the empty string and the audio bytes to absent in the same step. -/
theorem original_text_change_resets (s : SessionState) (tinput fcontent : String)
    (hpaste : tinput ≠ s.original_text)
    (hfile1 : fcontent ≠ "") (hfile2 : fcontent ≠ s.original_text) :
    (pasteTextStep s tinput).original_text = tinput ∧
    (pasteTextStep s tinput).rewritten_text = "" ∧
    (pasteTextStep s tinput).audio_data = none ∧
    (uploadFileStep s fcontent).original_text = fcontent ∧
    (uploadFileStep s fcontent).rewritten_text = "" ∧
    (uploadFileStep s fcontent).audio_data = none := by
  unfold pasteTextStep uploadFileStep
  rw [if_pos hpaste, if_pos ⟨hfile1, hfile2⟩]
  exact ⟨rfl, rfl, rfl, rfl, rfl, rfl⟩

theorem original_text_change_resets_witness :
    (pasteTextStep ⟨"old", "rew", "Neutral", "Lisa", some [1, 2]⟩ "new").original_text = "new" ∧
    (pasteTextStep ⟨"old", "rew", "Neutral", "Lisa", some [1, 2]⟩ "new").rewritten_text = "" ∧
    (pasteTextStep ⟨"old", "rew", "Neutral", "Lisa", some [1, 2]⟩ "new").audio_data = none ∧
    (uploadFileStep ⟨"old", "rew", "Neutral", "Lisa", some [1, 2]⟩ "fresh").original_text = "fresh" ∧
    (uploadFileStep ⟨"old", "rew", "Neutral", "Lisa", some [1, 2]⟩ "fresh").rewritten_text = "" ∧
    (uploadFileStep ⟨"old", "rew", "Neutral", "Lisa", some [1, 2]⟩ "fresh").audio_data = none :=
  original_text_change_resets ⟨"old", "rew", "Neutral", "Lisa", some [1, 2]⟩ "new" "fresh"
    (by decide) (by decide) (by decide)

/-- C5: for every clock value, input string and voice label, the bytes
returned by `synthesize` are exactly the base64 encoding of the
concatenation of the marker `MOCK_AUDIO_DATA_`, the UTF-8 encoding of the
first 50 characters of the text, the separator `_`, and the UTF-8 encoding
of the voice label; on the concrete input `hi` with voice `Lisa` this is the
ASCII byte list of `TU9DS19BVURJT19EQVRBX2hpX0xpc2E=`. -/
theorem synthesize_bytes_formula (clock : Nat) (text voice : String) :
    (MockWatsonTTS.synthesize clock text voice).2 =
      (base64Encode (utf8Encode "MOCK_AUDIO_DATA_" ++ utf8Encode ⟨text.data.take 50⟩ ++
        utf8Encode "_" ++ utf8Encode voice)).map Char.toNat ∧
    (MockWatsonTTS.synthesize 0 "hi" "Lisa").2 =
      "TU9DS19BVURJT19EQVRBX2hpX0xpc2E=".data.map Char.toNat :=
  ⟨rfl, by decide⟩

/-- C6: `synthesize` is deterministic in its text and voice arguments: the
returned bytes do not depend on the clock consumed by the artificial delay,
which only advances the clock by one unit. -/
theorem synthesize_deterministic (c1 c2 : Nat) (text voice : String) :
    (MockWatsonTTS.synthesize c1 text voice).2 = (MockWatsonTTS.synthesize c2 text voice).2 ∧
    (MockWatsonTTS.synthesize c1 text voice).1 = c1 + 1 :=
  ⟨rfl, rfl⟩

/-- C7: recomputing the rewritten text leaves the audio bytes unchanged, and
changing the selected tone or voice leaves both the audio bytes and the
rewritten text unchanged: no transition other than an original-text
replacement or an explicit synthesis touches previously generated audio. -/
theorem audio_preserved_by_other_transitions (s : SessionState) (tone voice : String) :
    (rewriteAction s).audio_data = s.audio_data ∧
    (selectTone s tone).audio_data = s.audio_data ∧
    (selectVoice s voice).audio_data = s.audio_data ∧
    (selectTone s tone).rewritten_text = s.rewritten_text ∧
    (selectVoice s voice).rewritten_text = s.rewritten_text := by
  refine ⟨?_, rfl, rfl, rfl, rfl⟩
  unfold rewriteAction
  split
  · rfl
  · rfl

/-- C8: when the rewrite call fails the state, and in particular the
rewritten text, keeps its prior value, and when the synthesis call fails the
state, and in particular the audio bytes, keeps its prior value; the
downstream field is assigned only when the operation returns
successfully. -/
theorem error_leaves_state_unchanged (s : SessionState) (err : String)
    (t : String) (b : List Nat) :
    applyRewriteResult s (Except.error err) = s ∧
    applySynthesizeResult s (Except.error err) = s ∧
    (applyRewriteResult s (Except.ok t)).rewritten_text = t ∧
    (applyRewriteResult s (Except.ok t)).audio_data = s.audio_data ∧
    (applySynthesizeResult s (Except.ok b)).audio_data = some b ∧
    (applySynthesizeResult s (Except.ok b)).rewritten_text = s.rewritten_text :=
  ⟨rfl, rfl, rfl, rfl, rfl, rfl⟩

/-- C9: for every input string and every tone label that is none of the
three recognized ones, `rewrite_text` returns its text argument
unchanged. -/
theorem unknown_tone_identity (t tone : String)
    (h1 : tone ≠ "Neutral") (h2 : tone ≠ "Suspenseful") (h3 : tone ≠ "Inspiring") :
    MockWatsonxLLM.rewrite_text t tone = t := by
  unfold MockWatsonxLLM.rewrite_text
  rw [if_neg h2, if_neg h3, if_neg h1]

theorem unknown_tone_identity_witness :
    MockWatsonxLLM.rewrite_text "hello world!" "Formal" = "hello world!" :=
  unknown_tone_identity "hello world!" "Formal" (by decide) (by decide) (by decide)

/-- C10: `process_uploaded_file` returns the decoded content stripped of
leading and trailing whitespace, returns the empty string on a read or
decode failure, returns the empty string on whitespace-only content, and
whenever its result is empty the upload transition leaves the session state
entirely unchanged. -/
theorem process_uploaded_file_empty_guard (content err : String) (s : SessionState) :
    process_uploaded_file (Except.ok content) = pyStrip content ∧
    process_uploaded_file (Except.error err) = "" ∧
    ((∀ ch ∈ content.data, pyIsSpace ch) → process_uploaded_file (Except.ok content) = "") ∧
    (∀ r : Except String String, process_uploaded_file r = "" →
      uploadFileStep s (process_uploaded_file r) = s) := by
  refine ⟨rfl, rfl, ?_, ?_⟩
  · intro hws
    show pyStrip content = ""
    unfold pyStrip
    rw [List.dropWhile_eq_nil_iff.mpr hws]
    rfl
  · intro r hr
    rw [hr]
    unfold uploadFileStep
    rw [if_neg (fun hcontra => hcontra.1 rfl)]

theorem process_uploaded_file_empty_guard_witness :
    process_uploaded_file (Except.ok " \x1c\t\x85\n ") = "" ∧
    uploadFileStep ⟨"orig", "rew", "Neutral", "Lisa", some [7]⟩
        (process_uploaded_file (Except.error "boom")) =
      ⟨"orig", "rew", "Neutral", "Lisa", some [7]⟩ :=
  ⟨(process_uploaded_file_empty_guard " \x1c\t\x85\n " "boom"
      ⟨"orig", "rew", "Neutral", "Lisa", some [7]⟩).2.2.1 (by decide),
   (process_uploaded_file_empty_guard " \x1c\t\x85\n " "boom"
      ⟨"orig", "rew", "Neutral", "Lisa", some [7]⟩).2.2.2 (Except.error "boom")
     (process_uploaded_file_empty_guard " \x1c\t\x85\n " "boom"
      ⟨"orig", "rew", "Neutral", "Lisa", some [7]⟩).2.1⟩
